import Mathlib

/-!
Verification of the Leviton circadian brightness-ramp service (`src/main.py`)
against its natural-language specification.

Each Python function relevant to the claims is shallowly embedded as a Lean
definition below, translated directly from the source.  Wall-clock reads,
file reads that other processes may mutate, and device/cloud I/O are made
explicit parameters (oracles), since they are the program's external inputs.
-/

namespace CircadianRamp

/-! ## Override table (`load_overrides` / `save_overrides` / `cleanup_overrides`)

An override document maps an ISO date string to an action object
(`action: skip` or `action: reschedule` with a time field); malformed
entries carry any other shape.  We embed the document as an association
list from date strings to actions. -/

inductive OverrideAction where
  | skip
  | reschedule (time : String)
  | other
deriving DecidableEq, Repr

abbrev Overrides := List (String × OverrideAction)

/-- `overrides.get(dateStr, \x7b\x7d).get("action")`: look up the action
recorded for a date, `none` when the date has no entry. -/
def lookupAction (overrides : Overrides) (dateStr : String) : Option OverrideAction :=
  (overrides.find? (fun p => p.1 = dateStr)).map Prod.snd

/-- `cleanup_overrides` (src/main.py:64-68): keep exactly the entries whose
date key compares `>=` today (Python compares date strings lexicographically,
as does `String.le`).  The ambient `datetime.date.today()` read is the
explicit `today` parameter. -/
def cleanup_overrides (overrides : Overrides) (today : String) : Overrides :=
  overrides.filter (fun p => today ≤ p.1)

/-! ## Run-state store (`load_state` / `save_state` / `already_ran_today` / `record_run`)

`state.json` is a JSON object; the loop touches only its `last_run` field.
We embed the parsed document as an association list from keys to (encoded)
values. -/

abbrev RunState := List (String × String)

/-- `state.get(key)` on a parsed JSON object: first binding for the key. -/
def getKey (st : RunState) (k : String) : Option String :=
  (st.find? (fun p => p.1 = k)).map Prod.snd

/-- Python dict assignment `state[k] = v`: replace the value in place if the
key is present, otherwise append the new binding. -/
def setKey : RunState → String → String → RunState
  | [], k, v => [(k, v)]
  | (k', v') :: rest, k, v =>
      if k' = k then (k, v) :: rest else (k', v') :: setKey rest k v

/-- `already_ran_today` (src/main.py:126-129): the persisted `last_run`
field equals today's ISO date.  `datetime.date.today().isoformat()` is the
explicit `todayIso` parameter, the parsed state file the `st` parameter. -/
def already_ran_today (todayIso : String) (st : RunState) : Bool :=
  getKey st "last_run" == some todayIso

/-- `record_run` (src/main.py:132-136): load the state, set `last_run` to
today's ISO date, save it back. -/
def record_run (todayIso : String) (st : RunState) : RunState :=
  setKey st "last_run" todayIso

/-! ## Date argument parsing (`parse_date_arg`, src/main.py:71-105)

Calendar dates are embedded as day ordinals (`ℕ`), with weekday
`d % 7` (day 0 is a Monday, matching Python's `date.weekday()` convention
`monday = 0`).  The claim under verification concerns the `today`,
`tomorrow` and weekday-name branches; the trailing ISO-literal fallback
parses a literal date string and is outside the weekday claim, embedded
here as `none`. -/

def day_names : List String :=
  ["monday", "tuesday", "wednesday", "thursday", "friday", "saturday", "sunday"]

/-- `days_ahead` (src/main.py:91-93): `(target_weekday - today.weekday()) % 7`
with Python's mathematical modulus, i.e. `Int.emod`; a zero distance rolls
over to a full week (`if days_ahead == 0: days_ahead = 7`). -/
def weekdayDistance (target_weekday todayWeekday : ℕ) : ℤ :=
  if ((target_weekday : ℤ) - (todayWeekday : ℤ)) % 7 = 0 then 7
  else ((target_weekday : ℤ) - (todayWeekday : ℤ)) % 7

/-- `value.lower()`: lower-case each character (structural form of
`String.toLower`, so that concrete inputs evaluate). -/
def strLower (s : String) : String := ⟨s.data.map Char.toLower⟩

/-- `parse_date_arg` (src/main.py:71-105) on the `today` / `tomorrow` /
weekday-name branches.  The trailing ISO-literal fallback and the invalid
case are embedded as `none`. -/
def parse_date_arg (value : String) (today : ℕ) : Option ℕ :=
  let low := strLower value
  if low = "today" then some today
  else if low = "tomorrow" then some (today + 1)
  else if day_names.contains low then
    some (today + (weekdayDistance (day_names.indexOf low) (today % 7)).toNat)
  else none

/-! ## Brightness schedule (`calculate_brightness_times`, src/main.py:247-262)

Python floats compute `total_seconds * math.log(b / 1) / math.log(100 / 1)`;
we embed the arithmetic over `ℝ` with `Real.log`, the idealised value the
floats approximate. -/

def min_brightness : ℕ := 1

def max_brightness : ℕ := 100

/-- `calculate_brightness_times` (src/main.py:247-262): for each brightness
level in `range(min_brightness, max_brightness + 1)` the offset from the
ramp start at which it is reached; the bottom level is pinned to `0` by the
explicit branch, with no log or division evaluated there. -/
noncomputable def calculate_brightness_times (total_seconds : ℝ) : List (ℝ × ℕ) :=
  (List.range' min_brightness (max_brightness - min_brightness + 1)).map
    (fun brightness =>
      (if brightness = min_brightness then 0
       else total_seconds * Real.log ((brightness : ℝ) / (min_brightness : ℝ)) /
            Real.log ((max_brightness : ℝ) / (min_brightness : ℝ)),
       brightness))

/-- The offset at which one brightness level is reached — the per-level
body of `calculate_brightness_times`. -/
noncomputable def levelOffset (total_seconds : ℝ) (brightness : ℕ) : ℝ :=
  if brightness = 1 then 0
  else total_seconds * Real.log (brightness : ℝ) / Real.log 100

/-- The level components of the schedule: `1, 2, ..., 100`.  The duration
only affects the offsets, so the ramp loop below iterates over this list. -/
def schedule_levels : List ℕ := List.range' min_brightness (max_brightness - min_brightness + 1)

/-! ## Ramp execution (`run_ramp`, src/main.py:265-305)

A switch is embedded by its name, its current power attribute, and oracles
saying which `update_attributes` calls the device/cloud accepts:
`brightnessOk lvl` is whether setting brightness `lvl` succeeds, `powerOk`
whether the power-on command succeeds.  A call whose oracle says `false`
raises, i.e. propagates as `Except.error` unless the source wraps it in
`try/except`.

The waits between levels (`time.sleep`) do not affect which updates are
issued, so the embedding records the sequence of update attempts:
`(name, level, succeeded)`. -/

structure Switch where
  name : String
  power : String
  brightnessOk : ℕ → Bool
  powerOk : Bool

/-- Power-on loop (src/main.py:275-279): every switch whose `power`
attribute is not `"ON"` gets a power-on command; a failure there is *not*
wrapped in `try/except` and propagates. -/
def powerOnPhase : List Switch → Except String Unit
  | [] => .ok ()
  | s :: rest =>
      if s.power ≠ "ON" then
        if s.powerOk then powerOnPhase rest
        else .error ("power update failed: " ++ s.name)
      else powerOnPhase rest

/-- Initial brightness loop (src/main.py:283-285): every switch is set to
brightness 1; this loop is *not* wrapped in `try/except`, so a failure
propagates out of `run_ramp`. -/
def initialBrightnessPhase : List Switch → Except String Unit
  | [] => .ok ()
  | s :: rest =>
      if s.brightnessOk 1 then initialBrightnessPhase rest
      else .error ("brightness update failed: " ++ s.name)

/-- Main schedule loop (src/main.py:289-303) over `brightness_schedule[1:]`:
each remaining level is attempted on every switch; each individual
`update_attributes` call sits inside `try/except`, so a failure is logged
(recorded as a `false` outcome) and the loop continues. -/
def rampLoopAttempts (switches : List Switch) : List (String × ℕ × Bool) :=
  (schedule_levels.drop 1).flatMap
    (fun lvl => switches.map (fun s => (s.name, lvl, s.brightnessOk lvl)))

/-- `run_ramp` (src/main.py:265-305): early return on an empty switch list,
then power-on phase, then the uncaught initial brightness-1 phase, then the
per-level loop with per-call fault isolation.  `.ok attempts` means the
function returned normally (ramp complete), `.error` that an uncaught
exception escaped. -/
def run_ramp (switches : List Switch) : Except String (List (String × ℕ × Bool)) :=
  if switches.isEmpty then .ok []
  else
    match powerOnPhase switches with
    | .error e => .error e
    | .ok () =>
        match initialBrightnessPhase switches with
        | .error e => .error e
        | .ok () => .ok (rampLoopAttempts switches)

/-! ## Interruptible sleep (`interruptible_sleep`, src/main.py:143-159)

`_wake_event` is a `threading.Event`, embedded as a `Bool` (set / clear).
`interruptible_sleep` is embedded as a state transformer on that flag:
`ev` is the flag's value when the call starts (a SIGUSR1 delivered earlier
has already set it), and `setDuringWait` says whether a SIGUSR1 arrives
while `wait(timeout=...)` is blocking.  The result is
`(interrupted, flag after the call)`. -/

def event_clear (_ev : Bool) : Bool := false

/-- `Event.wait(timeout)`: returns `True` iff the flag is set on entry or
becomes set during the wait (in which case it returns early). -/
def event_wait (ev setDuringWait : Bool) : Bool := ev || setDuringWait

/-- `interruptible_sleep` (src/main.py:152-159): clear the event, then wait
on it with a timeout; return whether the wait was interrupted. -/
def interruptible_sleep (ev setDuringWait : Bool) : Bool × Bool :=
  let ev1 := event_clear ev
  let interrupted := event_wait ev1 setDuringWait
  (interrupted, ev1 || setDuringWait)

/-! ## Override persistence (`save_overrides`, src/main.py:59-61)

`Path.write_text` opens the file with truncation and then writes the whole
serialised document.  We embed the observable store content and the
sequence of file-system steps the call performs, so that what an observer
(or a crash) can see mid-call is expressible. -/

inductive FileContent where
  | empty
  | doc (m : Overrides)
deriving DecidableEq, Repr

inductive WriteOp where
  | truncate
  | writeAll (m : Overrides)
deriving DecidableEq, Repr

/-- The file-system steps of `save_overrides` (src/main.py:59-61): a plain
`write_text` on the target path, i.e. truncate then write — no temporary
file, no rename. -/
def save_overrides_ops (m : Overrides) : List WriteOp :=
  [.truncate, .writeAll m]

def applyOp (_c : FileContent) : WriteOp → FileContent
  | .truncate => .empty
  | .writeAll m => .doc m

def applyOps (c : FileContent) (ops : List WriteOp) : FileContent :=
  ops.foldl applyOp c

/-- Crash/observer atomicity: after every prefix of the call's file-system
steps the store holds either the old content or the new content in full. -/
def atomicReplace (old : FileContent) (m : Overrides) : Prop :=
  ∀ k, applyOps old ((save_overrides_ops m).take k) = old ∨
       applyOps old ((save_overrides_ops m).take k) = .doc m

/-! ## Scheduler loop (`cmd_service`, src/main.py:373-458)

One iteration of the `while True` body, with the external inputs it
consumes made explicit:

* `todayStr` — `datetime.date.today().isoformat()` at the top of the body;
* `overrides` — the override file as loaded at src/main.py:386;
* `st` — the parsed run-state document (`state.json` is written only by
  this loop, so it is threaded through the iteration);
* `IterEnv` — the remaining reads the iteration may perform: the wall
  clock (`waitSecs = _seconds_until(target)`), whether the target-time
  sleep was interrupted by SIGUSR1, the override file re-loaded after the
  sleep (src/main.py:422) and again before the purge (src/main.py:450, the
  file may be edited concurrently by the skip/reschedule/clear commands),
  and the outcome of `_authenticate_and_get_switches` (its cloud calls can
  raise an `Exception`, and `load_config`/the empty-switch-list check call
  `sys.exit(1)`, which raises `SystemExit` — *not* an `Exception` — so it
  escapes the `except Exception` handler and terminates the process).

The iteration result records which sleeps the body performed and in which
order, whether the ramp engine was invoked, whether `record_run` was
called, the final run state, the error logged by the `except` handler if
any, the overrides written back by the purge step if any, and the process
exit code if the body terminated the process. -/

inductive AuthResult where
  | ok (switches : List Switch)
  | exn (e : String)
  | exit (code : ℕ)

structure IterEnv where
  waitSecs : ℤ
  sleepInterrupted : Bool
  overrides2 : Overrides
  overrides3 : Overrides
  auth : AuthResult

inductive SleepKind where
  | untilMidnight
  | untilTarget
  | forSeconds (n : ℕ)
deriving DecidableEq, Repr

structure IterResult where
  sleeps : List SleepKind
  rampInvoked : Bool
  recordedRun : Bool
  finalState : RunState
  loggedError : Option String
  savedOverrides : Option Overrides
  exited : Option ℕ
deriving DecidableEq, Repr

/-- The no-effect-yet result skeleton an iteration starts from. -/
def iterStart (st : RunState) : IterResult :=
  { sleeps := [], rampInvoked := false, recordedRun := false, finalState := st,
    loggedError := none, savedOverrides := none, exited := none }

/-- One iteration of the `cmd_service` body (src/main.py:384-458). -/
def serviceIteration (todayStr : String) (overrides : Overrides) (st : RunState)
    (env : IterEnv) : IterResult :=
  -- src/main.py:389-393 — already ran today: sleep until midnight, restart
  if already_ran_today todayStr st then
    { iterStart st with sleeps := [.untilMidnight] }
  -- src/main.py:396-402 — skip override: record the day, sleep until midnight
  else if lookupAction overrides todayStr = some .skip then
    { iterStart st with
        recordedRun := true, finalState := record_run todayStr st,
        sleeps := [.untilMidnight] }
  else
    -- src/main.py:405-410 — target time: reschedule override or default
    -- (the chosen time only feeds the wall-clock read `env.waitSecs`)
    -- src/main.py:413-419 — wait until target time
    let sleptTarget := decide (0 < env.waitSecs)
    let targetSleeps : List SleepKind := if sleptTarget then [.untilTarget] else []
    if sleptTarget && env.sleepInterrupted then
      { iterStart st with sleeps := [.untilTarget] }
    else
      -- src/main.py:422-429 — re-check overrides after the sleep
      if lookupAction env.overrides2 todayStr = some .skip then
        { iterStart st with
            recordedRun := true, finalState := record_run todayStr st,
            sleeps := targetSleeps ++ [.untilMidnight] }
      -- src/main.py:431-434 — re-check already_ran_today
      else if already_ran_today todayStr st then
        { iterStart st with sleeps := targetSleeps ++ [.untilMidnight] }
      else
        -- src/main.py:437-447 — the ramp attempt inside try/except
        match env.auth with
        | .exit code =>
            { iterStart st with sleeps := targetSleeps, exited := some code }
        | .exn e =>
            { iterStart st with
                sleeps := targetSleeps ++ [.forSeconds 60],
                loggedError := some ("Ramp failed: " ++ e) }
        | .ok switches =>
            match run_ramp switches with
            | .error e =>
                { iterStart st with
                    rampInvoked := true,
                    sleeps := targetSleeps ++ [.forSeconds 60],
                    loggedError := some ("Ramp failed: " ++ e) }
            | .ok _ =>
                -- src/main.py:449-458 — record, purge expired overrides,
                -- sleep until midnight
                let cleaned := cleanup_overrides env.overrides3 todayStr
                { iterStart st with
                    rampInvoked := true,
                    recordedRun := true, finalState := record_run todayStr st,
                    savedOverrides := if cleaned ≠ env.overrides3 then some cleaned else none,
                    sleeps := targetSleeps ++ [.untilMidnight] }

/-! ## Concrete instances used by counterexamples and witnesses -/

/-- A healthy switch: already powered on, accepts every command. -/
def goodSwitch (nm : String) : Switch :=
  { name := nm, power := "ON", brightnessOk := fun _ => true, powerOk := true }

/-- A switch that raises on every `set_brightness` call. -/
def badSwitch : Switch :=
  { name := "bad", power := "ON", brightnessOk := fun _ => false, powerOk := true }

/-- A switch whose initial brightness-1 set succeeds but that raises on
every later `set_brightness` call. -/
def flakySwitch : Switch :=
  { name := "flaky", power := "ON", brightnessOk := fun lvl => lvl == 1, powerOk := true }

/-! # Theorems -/

theorem getKey_setKey_self (st : RunState) (k v : String) :
    getKey (setKey st k v) k = some v := by
  induction st with
  | nil => simp [setKey, getKey, List.find?]
  | cons p rest ih =>
      obtain ⟨k', v'⟩ := p
      by_cases h : k' = k
      · simp [setKey, h, getKey, List.find?]
      · simpa [setKey, h, getKey, List.find?] using ih

theorem getKey_setKey_ne (st : RunState) (k k' v : String) (h : k' ≠ k) :
    getKey (setKey st k v) k' = getKey st k' := by
  induction st with
  | nil => simp [setKey, getKey, List.find?, Ne.symm h]
  | cons p rest ih =>
      obtain ⟨k₀, v₀⟩ := p
      by_cases h0 : k₀ = k
      · subst h0
        simp [setKey, getKey, List.find?, Ne.symm h]
      · by_cases h1 : k₀ = k'
        · simp [setKey, h0, getKey, List.find?, h1, h]
        · simpa [setKey, h0, getKey, List.find?, h1] using ih

theorem filter_setKey_ne (st : RunState) (k v : String) :
    (setKey st k v).filter (fun p => p.1 ≠ k) = st.filter (fun p => p.1 ≠ k) := by
  induction st with
  | nil => simp [setKey]
  | cons p rest ih =>
      obtain ⟨k₀, v₀⟩ := p
      simp only [ne_eq, decide_not] at ih ⊢
      by_cases h0 : k₀ = k
      · subst h0
        simp [setKey]
      · simp [setKey, h0, List.filter_cons, ih]

/-- C6: `cleanup_overrides` keeps exactly the entries whose date is ≥
today, and is idempotent for a fixed `today`.  (The embedding is a pure
function, so the input mapping is untouched by construction, matching the
dict comprehension building a fresh dict in the source.) -/
theorem cleanup_overrides_spec (m : Overrides) (today : String) :
    (∀ p, p ∈ cleanup_overrides m today ↔ p ∈ m ∧ today ≤ p.1) ∧
    cleanup_overrides (cleanup_overrides m today) today = cleanup_overrides m today := by
  constructor
  · intro p
    simp [cleanup_overrides, List.mem_filter]
  · simp [cleanup_overrides, List.filter_filter]

/-- C7: immediately after `record_run` on date `d`, `already_ran_today`
holds for `d` and fails for every other date; in general
`already_ran_today` is true exactly when the persisted `last_run` field
equals today's ISO date. -/
theorem already_ran_today_record_run (st : RunState) (d d' : String) :
    already_ran_today d (record_run d st) = true ∧
    (d' ≠ d → already_ran_today d' (record_run d st) = false) ∧
    (∀ t s, already_ran_today t s = true ↔ getKey s "last_run" = some t) := by
  refine ⟨?_, ?_, ?_⟩
  · simp [already_ran_today, record_run, getKey_setKey_self]
  · intro hne
    simp [already_ran_today, record_run, getKey_setKey_self, Ne.symm hne]
  · intro t s
    simp [already_ran_today]

/-- C7 witness: after recording 2025-06-01, that date reads as done and
2025-06-02 does not. -/
theorem already_ran_today_record_run_witness :
    ("2025-06-02" : String) ≠ "2025-06-01" ∧
    (already_ran_today "2025-06-01" (record_run "2025-06-01" []) = true ∧
     ("2025-06-02" ≠ "2025-06-01" →
       already_ran_today "2025-06-02" (record_run "2025-06-01" []) = false) ∧
     (∀ t s, already_ran_today t s = true ↔ getKey s "last_run" = some t)) :=
  ⟨by decide, already_ran_today_record_run [] "2025-06-01" "2025-06-02"⟩

/-- C10: `record_run` rewrites only the `last_run` binding: the sequence of
all other key-value pairs of the state document is unchanged (hence so is
every individual pair). -/
theorem record_run_frame (todayIso : String) (st : RunState) :
    ((record_run todayIso st).filter (fun p => p.1 ≠ "last_run") =
       st.filter (fun p => p.1 ≠ "last_run")) ∧
    (∀ k v, k ≠ "last_run" →
      ((k, v) ∈ record_run todayIso st ↔ (k, v) ∈ st)) := by
  constructor
  · exact filter_setKey_ne st "last_run" todayIso
  · intro k v hk
    constructor
    · intro hmem
      have h1 : (k, v) ∈ (record_run todayIso st).filter (fun p => p.1 ≠ "last_run") :=
        List.mem_filter.mpr ⟨hmem, by simpa using hk⟩
      simp only [record_run] at h1
      rw [filter_setKey_ne st "last_run" todayIso] at h1
      exact (List.mem_filter.mp h1).1
    · intro hmem
      have h1 : (k, v) ∈ st.filter (fun p => p.1 ≠ "last_run") :=
        List.mem_filter.mpr ⟨hmem, by simpa using hk⟩
      rw [← filter_setKey_ne st "last_run" todayIso] at h1
      exact (List.mem_filter.mp h1).1

/-- C10 witness: recording over a document with an extra field keeps that
field's binding intact. -/
theorem record_run_frame_witness :
    ("note" : String) ≠ "last_run" ∧
    (("note", "hello") ∈ record_run "2025-06-01" [("note", "hello"), ("last_run", "2025-05-30")] ↔
      ("note", "hello") ∈ ([("note", "hello"), ("last_run", "2025-05-30")] : RunState)) :=
  ⟨by decide,
   (record_run_frame "2025-06-01" [("note", "hello"), ("last_run", "2025-05-30")]).2
     "note" "hello" (by decide)⟩

/-- C3: the wake condition is *not* race-free across calls.
`interruptible_sleep` starts with `_wake_event.clear()`, so a SIGUSR1 that
arrived after the previous sleep returned but before this call begins
(event flag already set on entry) is discarded: with no further signal
during the wait, the call blocks for the full duration and returns
`False` (expired), not `True` (interrupted).  The wake request is lost. -/
theorem interruptible_sleep_drops_pending_wake :
    interruptible_sleep true false = (false, false) := rfl

theorem parse_date_arg_day (value : String) (today target : ℕ) (nm : String)
    (h : strLower value = nm)
    (h1 : ¬ nm = "today") (h2 : ¬ nm = "tomorrow")
    (h3 : nm ∈ day_names)
    (h4 : day_names.indexOf nm = target) :
    parse_date_arg value today =
      some (today + (weekdayDistance target (today % 7)).toNat) := by
  simp [parse_date_arg, h, h1, h2, h3, h4]

theorem parse_date_arg_weekday_core (value : String) (today target : ℕ)
    (hp : parse_date_arg value today =
      some (today + (weekdayDistance target (today % 7)).toNat))
    (h7 : target < 7)
    (hidx : day_names.indexOf (strLower value) = target) :
    ∃ d, parse_date_arg value today = some d ∧
      today < d ∧ d ≤ today + 7 ∧
      d % 7 = day_names.indexOf (strLower value) ∧
      (day_names.indexOf (strLower value) = today % 7 → d = today + 7) := by
  refine ⟨_, hp, ?_⟩
  rw [hidx]
  simp only [weekdayDistance]
  have hm : today % 7 < 7 := Nat.mod_lt _ (by norm_num)
  split <;> refine ⟨?_, ?_, ?_, fun ht => ?_⟩ <;> omega

/-- C8: a weekday-name argument resolves to the next future occurrence of
that weekday: strictly after today, at most seven days ahead, landing on
the named weekday (`d % 7` is the name's index, Monday = 0); and when the
name denotes today's own weekday the result is exactly one week from
today, never today itself. -/
theorem parse_date_arg_weekday (value : String) (today : ℕ)
    (hmem : strLower value ∈ day_names) :
    ∃ d, parse_date_arg value today = some d ∧
      today < d ∧ d ≤ today + 7 ∧
      d % 7 = day_names.indexOf (strLower value) ∧
      (day_names.indexOf (strLower value) = today % 7 → d = today + 7) := by
  simp only [day_names, List.mem_cons, List.not_mem_nil, or_false] at hmem
  rcases hmem with h | h | h | h | h | h | h
  · exact parse_date_arg_weekday_core value today 0
      (parse_date_arg_day value today 0 "monday" h (by decide) (by decide)
        (by decide) (by decide)) (by decide) (by rw [h]; decide)
  · exact parse_date_arg_weekday_core value today 1
      (parse_date_arg_day value today 1 "tuesday" h (by decide) (by decide)
        (by decide) (by decide)) (by decide) (by rw [h]; decide)
  · exact parse_date_arg_weekday_core value today 2
      (parse_date_arg_day value today 2 "wednesday" h (by decide) (by decide)
        (by decide) (by decide)) (by decide) (by rw [h]; decide)
  · exact parse_date_arg_weekday_core value today 3
      (parse_date_arg_day value today 3 "thursday" h (by decide) (by decide)
        (by decide) (by decide)) (by decide) (by rw [h]; decide)
  · exact parse_date_arg_weekday_core value today 4
      (parse_date_arg_day value today 4 "friday" h (by decide) (by decide)
        (by decide) (by decide)) (by decide) (by rw [h]; decide)
  · exact parse_date_arg_weekday_core value today 5
      (parse_date_arg_day value today 5 "saturday" h (by decide) (by decide)
        (by decide) (by decide)) (by decide) (by rw [h]; decide)
  · exact parse_date_arg_weekday_core value today 6
      (parse_date_arg_day value today 6 "sunday" h (by decide) (by decide)
        (by decide) (by decide)) (by decide) (by rw [h]; decide)

/-- C8 witness: day 0 is a Monday; asking for "Monday" on a Monday resolves
to day 7 — the same weekday a full week later, never today. -/
theorem parse_date_arg_weekday_witness :
    strLower "Monday" ∈ day_names ∧
    (∃ d, parse_date_arg "Monday" 0 = some d ∧
      0 < d ∧ d ≤ 0 + 7 ∧
      d % 7 = day_names.indexOf (strLower "Monday") ∧
      (day_names.indexOf (strLower "Monday") = 0 % 7 → d = 0 + 7)) :=
  ⟨by decide, parse_date_arg_weekday "Monday" 0 (by decide)⟩

theorem log_onehundred_pos : (0 : ℝ) < Real.log 100 :=
  Real.log_pos (by norm_num)

theorem calculate_brightness_times_eq (T : ℝ) :
    calculate_brightness_times T =
      (List.range' 1 100).map (fun b => (levelOffset T b, b)) := by
  unfold calculate_brightness_times levelOffset min_brightness max_brightness
  norm_num

theorem levelOffset_lt (T : ℝ) (hT : 0 < T) (a b : ℕ) (ha : 1 ≤ a) (hab : a < b) :
    levelOffset T a < levelOffset T b := by
  have hbne : b ≠ 1 := by omega
  have hb1 : (1 : ℝ) < (b : ℝ) := by exact_mod_cast (by omega : 1 < b)
  have hlb : 0 < Real.log (b : ℝ) := Real.log_pos hb1
  rcases eq_or_lt_of_le ha with h1 | h1
  · rw [← h1]
    simp only [levelOffset, if_pos rfl, if_neg hbne, Nat.cast_one]
    exact div_pos (mul_pos hT hlb) log_onehundred_pos
  · have hane : a ≠ 1 := by omega
    simp only [levelOffset, if_neg hane, if_neg hbne]
    have h0a : (0 : ℝ) < (a : ℝ) := by exact_mod_cast (by omega : 0 < a)
    have hla : Real.log (a : ℝ) < Real.log (b : ℝ) :=
      Real.log_lt_log h0a (by exact_mod_cast hab)
    exact (div_lt_div_iff_of_pos_right log_onehundred_pos).mpr (mul_lt_mul_of_pos_left hla hT)

/-- C1: for every positive duration `T` the schedule has exactly 100
entries whose levels are `1..100` in order, is strictly increasing in both
offset and level, starts with `(0, 1)` — the offset of level 1 is `0` by
the explicit branch, not a log/division — gives level `B` the offset
`T * ln B / ln 100`, and ends with `(T, 100)`. -/
theorem calculate_brightness_times_spec (T : ℝ) (hT : 0 < T) :
    (calculate_brightness_times T).length = 100 ∧
    (calculate_brightness_times T).map Prod.snd = schedule_levels ∧
    (calculate_brightness_times T).Pairwise (fun p q => p.1 < q.1 ∧ p.2 < q.2) ∧
    (calculate_brightness_times T).head? = some (0, 1) ∧
    (∀ p ∈ calculate_brightness_times T,
      p.1 = T * Real.log (p.2 : ℝ) / Real.log 100) ∧
    (calculate_brightness_times T).getLast? = some (T, 100) := by
  rw [calculate_brightness_times_eq]
  refine ⟨by simp, ?_, ?_, ?_, ?_, ?_⟩
  · simp [schedule_levels, min_brightness, max_brightness, Function.comp_def]
  · rw [List.pairwise_map]
    refine (List.pairwise_lt_range' 1 100).imp_of_mem ?_
    intro a b hma _ hab
    rw [List.mem_range'_1] at hma
    exact ⟨levelOffset_lt T hT a b hma.1 hab, hab⟩
  · rw [show List.range' 1 100 = 1 :: List.range' 2 99 from rfl]
    simp [levelOffset]
  · intro p hp
    rcases List.mem_map.mp hp with ⟨b, _, rfl⟩
    by_cases hb : b = 1
    · simp [levelOffset, hb]
    · simp [levelOffset, hb]
  · rw [List.getLast?_map, List.getLast?_range']
    have h100 : levelOffset T 100 = T := by
      rw [levelOffset, if_neg (by norm_num), Nat.cast_ofNat, mul_div_assoc,
        div_self (ne_of_gt log_onehundred_pos), mul_one]
    simp [h100]

/-- C1 witness: the schedule properties at the concrete duration `T = 1`. -/
theorem calculate_brightness_times_spec_witness :
    (0 : ℝ) < 1 ∧
    ((calculate_brightness_times 1).length = 100 ∧
      (calculate_brightness_times 1).map Prod.snd = schedule_levels ∧
      (calculate_brightness_times 1).Pairwise (fun p q => p.1 < q.1 ∧ p.2 < q.2) ∧
      (calculate_brightness_times 1).head? = some (0, 1) ∧
      (∀ p ∈ calculate_brightness_times 1,
        p.1 = 1 * Real.log (p.2 : ℝ) / Real.log 100) ∧
      (calculate_brightness_times 1).getLast? = some (1, 100)) :=
  ⟨one_pos, calculate_brightness_times_spec 1 one_pos⟩

theorem powerOnPhase_ok (switches : List Switch)
    (h : switches.all (fun s => s.power == "ON" || s.powerOk) = true) :
    powerOnPhase switches = .ok () := by
  induction switches with
  | nil => rfl
  | cons s rest ih =>
      simp only [List.all_cons, Bool.and_eq_true, Bool.or_eq_true, beq_iff_eq] at h
      rcases h with ⟨hs, hrest⟩
      rcases hs with hs | hs
      · simp [powerOnPhase, hs, ih hrest]
      · by_cases hp : s.power = "ON"
        · simp [powerOnPhase, hp, ih hrest]
        · simp [powerOnPhase, hp, hs, ih hrest]

theorem initialBrightnessPhase_ok (switches : List Switch)
    (h : switches.all (fun s => s.brightnessOk 1) = true) :
    initialBrightnessPhase switches = .ok () := by
  induction switches with
  | nil => rfl
  | cons s rest ih =>
      simp only [List.all_cons, Bool.and_eq_true] at h
      simp [initialBrightnessPhase, h.1, ih h.2]

theorem schedule_levels_drop_one : schedule_levels.drop 1 = List.range' 2 99 := rfl

theorem rampLoopAttempts_nil : rampLoopAttempts [] = [] := by
  unfold rampLoopAttempts
  induction schedule_levels.drop 1 with
  | nil => rfl
  | cons a l ih => simp [ih]

/-- C2 counterexample: with a healthy switch, a switch that raises on every
`set_brightness` call, and another healthy switch, `run_ramp` does **not**
complete: the initial brightness-1 set (src/main.py:283-285) is outside the
`try/except`, so the failing device's first error propagates, aborting the
ramp before any of the 100 levels is run for the remaining devices. -/
theorem run_ramp_initial_failure_aborts :
    run_ramp [goodSwitch "left", badSwitch, goodSwitch "right"] =
      .error ("brightness update failed: bad") := rfl

/-- C2 amended: provided every device accepts the *initial* brightness-1
set (and powers on, or is already on), any `set_brightness` failure at
levels 2..100 is caught and logged and never aborts the ramp: `run_ramp`
returns normally having attempted, for every device — failing or not —
every remaining level of the schedule, each attempt recorded with its
per-device outcome (a `false` outcome is the caught-and-logged failure). -/
theorem run_ramp_fault_isolation (switches : List Switch)
    (h1 : switches.all (fun s => s.brightnessOk 1) = true)
    (h2 : switches.all (fun s => s.power == "ON" || s.powerOk) = true) :
    run_ramp switches = .ok (rampLoopAttempts switches) ∧
    ∀ s ∈ switches, ∀ lvl, 2 ≤ lvl → lvl ≤ 100 →
      (s.name, lvl, s.brightnessOk lvl) ∈ rampLoopAttempts switches := by
  constructor
  · cases switches with
    | nil => simp [run_ramp, rampLoopAttempts_nil]
    | cons s0 rest =>
        have hp := powerOnPhase_ok _ h2
        have hb := initialBrightnessPhase_ok _ h1
        simp [run_ramp, hp, hb]
  · intro s hs lvl hlo hhi
    unfold rampLoopAttempts
    rw [schedule_levels_drop_one]
    refine List.mem_flatMap.mpr ⟨lvl, ?_, ?_⟩
    · rw [List.mem_range']
      exact ⟨lvl - 2, by omega, by omega⟩
    · exact List.mem_map.mpr ⟨s, hs, rfl⟩

/-- C2 amended, witness: three switches, one of which fails every
`set_brightness` call after the initial level-1 set; the ramp completes
with every level 2..100 attempted on all three. -/
theorem run_ramp_fault_isolation_witness :
    ([goodSwitch "a", flakySwitch, goodSwitch "b"].all
        (fun s => s.brightnessOk 1) = true) ∧
    ([goodSwitch "a", flakySwitch, goodSwitch "b"].all
        (fun s => s.power == "ON" || s.powerOk) = true) ∧
    (run_ramp [goodSwitch "a", flakySwitch, goodSwitch "b"] =
        .ok (rampLoopAttempts [goodSwitch "a", flakySwitch, goodSwitch "b"]) ∧
      ∀ s ∈ [goodSwitch "a", flakySwitch, goodSwitch "b"], ∀ lvl, 2 ≤ lvl → lvl ≤ 100 →
        (s.name, lvl, s.brightnessOk lvl) ∈
          rampLoopAttempts [goodSwitch "a", flakySwitch, goodSwitch "b"]) :=
  ⟨rfl, rfl, run_ramp_fault_isolation [goodSwitch "a", flakySwitch, goodSwitch "b"] rfl rfl⟩

/-- C9 counterexample: `save_overrides` is a plain in-place
`Path.write_text` — truncate, then write.  After the truncation step the
store holds the empty document, which is neither the old content nor the
new content, so the replacement is not crash/observer-atomic. -/
theorem save_overrides_not_atomic :
    ¬ atomicReplace (.doc [("2025-06-01", .skip)]) [("2025-06-02", .skip)] := by
  intro h
  rcases h 1 with h1 | h1 <;> simp [atomicReplace, applyOps, applyOp, save_overrides_ops] at h1

/-- C9 amended: `save_overrides` replaces the backing store's content with
the given mapping — after the call completes the store holds exactly the
new document — but by truncating and rewriting the file in place rather
than write-temp-then-rename, so the intermediate state after truncation is
the empty document (which `load_overrides` reads back as "no overrides"). -/
theorem save_overrides_replaces_content (old : FileContent) (m : Overrides) :
    applyOps old (save_overrides_ops m) = .doc m ∧
    applyOps old ((save_overrides_ops m).take 1) = .empty :=
  ⟨rfl, rfl⟩

/-- C4: in any iteration whose loaded override table marks today as
`skip`, the loop ends the iteration with today recorded as done, sleeps
until midnight, and never reaches the ramp engine — no device command is
issued (and nothing is logged as an error, and the process does not
exit). -/
theorem serviceIteration_skip (todayStr : String) (overrides : Overrides)
    (st : RunState) (env : IterEnv)
    (h : lookupAction overrides todayStr = some OverrideAction.skip) :
    (serviceIteration todayStr overrides st env).rampInvoked = false ∧
    already_ran_today todayStr (serviceIteration todayStr overrides st env).finalState = true ∧
    (serviceIteration todayStr overrides st env).sleeps = [SleepKind.untilMidnight] ∧
    (serviceIteration todayStr overrides st env).loggedError = none ∧
    (serviceIteration todayStr overrides st env).exited = none := by
  cases ha : already_ran_today todayStr st with
  | true => simp [serviceIteration, ha, iterStart]
  | false =>
      have hne : ¬ getKey st "last_run" = some todayStr := by
        simpa [already_ran_today] using ha
      simp [serviceIteration, ha, h, iterStart, already_ran_today, record_run,
        getKey_setKey_self, hne]

/-- C4 witness: a skip override for 2025-06-01 on that very day. -/
theorem serviceIteration_skip_witness :
    lookupAction [("2025-06-01", OverrideAction.skip)] "2025-06-01" =
        some OverrideAction.skip ∧
    ((serviceIteration "2025-06-01" [("2025-06-01", OverrideAction.skip)] []
        ⟨0, false, [], [], AuthResult.exn "e"⟩).rampInvoked = false ∧
      already_ran_today "2025-06-01"
        (serviceIteration "2025-06-01" [("2025-06-01", OverrideAction.skip)] []
          ⟨0, false, [], [], AuthResult.exn "e"⟩).finalState = true ∧
      (serviceIteration "2025-06-01" [("2025-06-01", OverrideAction.skip)] []
        ⟨0, false, [], [], AuthResult.exn "e"⟩).sleeps = [SleepKind.untilMidnight] ∧
      (serviceIteration "2025-06-01" [("2025-06-01", OverrideAction.skip)] []
        ⟨0, false, [], [], AuthResult.exn "e"⟩).loggedError = none ∧
      (serviceIteration "2025-06-01" [("2025-06-01", OverrideAction.skip)] []
        ⟨0, false, [], [], AuthResult.exn "e"⟩).exited = none) :=
  ⟨rfl, serviceIteration_skip "2025-06-01" [("2025-06-01", OverrideAction.skip)] []
    ⟨0, false, [], [], AuthResult.exn "e"⟩ rfl⟩

/-- C5: in any iteration that reaches the ramp attempt and in which that
attempt raises an exception — authentication / device listing
(`AuthResult.exn`) or `run_ramp` itself — the loop logs the error, does
not record today as done (the run state is untouched), ends the iteration
with the fixed 60-second cooldown sleep, and restarts rather than
terminating: the iteration yields a result with no process exit.  (The
`sys.exit` configuration-error path is `AuthResult.exit`, a `SystemExit`,
which the spec classifies as a fatal configuration error, not a run-attempt
exception.) -/
theorem serviceIteration_ramp_failure (todayStr : String) (overrides : Overrides)
    (st : RunState) (env : IterEnv)
    (h1 : already_ran_today todayStr st = false)
    (h2 : ¬ lookupAction overrides todayStr = some OverrideAction.skip)
    (h3 : (decide (0 < env.waitSecs) && env.sleepInterrupted) = false)
    (h4 : ¬ lookupAction env.overrides2 todayStr = some OverrideAction.skip)
    (h5 : (∃ e, env.auth = AuthResult.exn e) ∨
          (∃ sw e, env.auth = AuthResult.ok sw ∧ run_ramp sw = Except.error e)) :
    (∃ e, (serviceIteration todayStr overrides st env).loggedError =
        some ("Ramp failed: " ++ e)) ∧
    (serviceIteration todayStr overrides st env).recordedRun = false ∧
    (serviceIteration todayStr overrides st env).finalState = st ∧
    (serviceIteration todayStr overrides st env).sleeps.getLast? =
        some (SleepKind.forSeconds 60) ∧
    (serviceIteration todayStr overrides st env).exited = none := by
  rcases h5 with ⟨e, hauth⟩ | ⟨sw, e, hauth, hramp⟩
  · refine ⟨⟨e, ?_⟩, ?_, ?_, ?_, ?_⟩ <;>
      simp [serviceIteration, h1, h2, h3, h4, hauth, iterStart, List.getLast?_concat]
  · refine ⟨⟨e, ?_⟩, ?_, ?_, ?_, ?_⟩ <;>
      simp [serviceIteration, h1, h2, h3, h4, hauth, hramp, iterStart,
        List.getLast?_concat]

/-- C5 witness: an authentication failure on 2025-06-01 with no overrides
and the target time already past. -/
theorem serviceIteration_ramp_failure_witness :
    already_ran_today "2025-06-01" [] = false ∧
    ¬ lookupAction [] "2025-06-01" = some OverrideAction.skip ∧
    ((decide ((0 : ℤ) < 0) && false) = false) ∧
    ((∃ e, AuthResult.exn "boom" = AuthResult.exn e) ∨
      (∃ sw e, AuthResult.exn "boom" = AuthResult.ok sw ∧ run_ramp sw = Except.error e)) ∧
    ((∃ e, (serviceIteration "2025-06-01" [] []
          ⟨0, false, [], [], AuthResult.exn "boom"⟩).loggedError =
        some ("Ramp failed: " ++ e)) ∧
      (serviceIteration "2025-06-01" [] []
          ⟨0, false, [], [], AuthResult.exn "boom"⟩).recordedRun = false ∧
      (serviceIteration "2025-06-01" [] []
          ⟨0, false, [], [], AuthResult.exn "boom"⟩).finalState = [] ∧
      (serviceIteration "2025-06-01" [] []
          ⟨0, false, [], [], AuthResult.exn "boom"⟩).sleeps.getLast? =
          some (SleepKind.forSeconds 60) ∧
      (serviceIteration "2025-06-01" [] []
          ⟨0, false, [], [], AuthResult.exn "boom"⟩).exited = none) :=
  ⟨rfl, by decide, rfl, Or.inl ⟨"boom", rfl⟩,
   serviceIteration_ramp_failure "2025-06-01" [] []
     ⟨0, false, [], [], AuthResult.exn "boom"⟩ rfl (by decide) rfl (by decide)
     (Or.inl ⟨"boom", rfl⟩)⟩

end CircadianRamp
